import Mathlib

/-!
Verification of the render-loop program in `src/main.go` (an OpenGL/GLFW
demo written in Go).  The program is shallowly embedded: every GL/GLFW
call the Go code performs is recorded as a `GLCall` event, and each Go
function becomes a Lean function from its inputs (plus an oracle
describing the results returned by the external GL/GLFW library) to its
result together with the trace of calls it issues.
-/

/-! ## Constants of the `gl` and `glfw` packages used by `src/main.go` -/

def GL_VERTEX_SHADER : Nat := 0x8B31
def GL_FRAGMENT_SHADER : Nat := 0x8B30
def GL_COMPILE_STATUS : Nat := 0x8B81
def GL_INFO_LOG_LENGTH : Nat := 0x8B84
def GL_ARRAY_BUFFER : Nat := 0x8892
def GL_STATIC_DRAW : Nat := 0x88E4
def GL_FLOAT : Nat := 0x1406
def GL_LINE_LOOP : Nat := 0x0002
def GL_COLOR_BUFFER_BIT : Nat := 0x00004000
def GL_DEPTH_BUFFER_BIT : Nat := 0x00000100
def GL_VERSION : Nat := 0x1F02
def GL_FALSE : Int := 0

def GLFW_RESIZABLE : Nat := 0x00020003
def GLFW_CONTEXT_VERSION_MAJOR : Nat := 0x00022002
def GLFW_CONTEXT_VERSION_MINOR : Nat := 0x00022003
def GLFW_OPENGL_PROFILE : Nat := 0x00022008
def GLFW_OPENGL_FORWARD_COMPAT : Nat := 0x00022006
def GLFW_OPENGL_CORE_PROFILE : Nat := 0x00032001
def GLFW_FALSE : Nat := 0
def GLFW_TRUE : Nat := 1

/-! ## Compile-time constants of `src/main.go` (lines 13-52) -/

def NUM_BYTES_IN_32_BIT : Nat := 4

def width : Nat := 640

def height : Nat := 480

/-- The Go constant `vertexShaderSource` (src/main.go lines 17-27), a GLSL
source string followed by a NUL terminator. -/
def vertexShaderSource : String :=
  "\n    #version 410\n\n    uniform float u_time;\n\n    in vec3 vp;\n    void main() \x7b\n    \t\tfloat pct = abs(sin(u_time));\n        gl_Position = vec4(vp, pct);\n    \x7d\n" ++ "\x00"

/-- The Go constant `fragmentShaderSource` (src/main.go lines 29-51), a GLSL
source string followed by a NUL terminator. -/
def fragmentShaderSource : String :=
  "\n    #version 410\n\n    uniform vec2 u_resolution;\n    uniform float u_time;\n\n    vec3 colorA = vec3(0.149,0.141,0.912);\n    vec3 colorB = vec3(1.000,0.833,0.224);\n\n    out vec4 FragColor;\n\n    void main() \x7b\n        vec3 color = vec3(0.0);\n\n        float pct = abs(sin(u_time));\n\n        // Mix uses pct (a value from 0-1) to\n        // mix the two colors\n        color = mix(colorA, colorB, pct);\n\n        FragColor = vec4(color,1.0);\n    \x7d\n" ++ "\x00"

/-! ## Geometry constants (src/main.go lines 54-73).  The Go element type is
`float32`; every literal appearing in the file (`-0.5`, `0.5`, `0`) is
exactly representable, so the values are embedded as rationals. -/

def right : List ℚ :=
  [-(1/2), 1/2, 0,
   -(1/2), -(1/2), 0,
   1/2, -(1/2), 0]

def square : List ℚ :=
  [-(1/2), 1/2, 0,
   -(1/2), -(1/2), 0,
   1/2, -(1/2), 0,
   -(1/2), 1/2, 0,
   1/2, 1/2, 0,
   1/2, -(1/2), 0]

def isoceles : List ℚ :=
  [0, 1/2, 0,
   -(1/2), -(1/2), 0,
   1/2, -(1/2), 0]

/-! ## The trace alphabet: one constructor per external GL/GLFW call that
`src/main.go` can issue.  `getProgramiv` and `getProgramInfoLog` are part of
the alphabet (they are the calls a link-status check would make) so that
their absence from every trace is a meaningful statement. -/

inductive GLCall where
  | glfwInit
  | windowHint (target value : Nat)
  | createWindow (w h : Nat)
  | makeContextCurrent
  | glInit
  | getString (name : Nat)
  | createShader (shaderType : Nat)
  | shaderSource (shader : Nat)
  | compileShaderCall (shader : Nat)
  | getShaderiv (shader pname : Nat)
  | getShaderInfoLog (shader bufSize : Nat)
  | createProgram
  | attachShader (prog shader : Nat)
  | linkProgram (prog : Nat)
  | getProgramiv (prog pname : Nat)
  | getProgramInfoLog (prog : Nat)
  | genBuffers (n : Nat)
  | bindBuffer (target buffer : Nat)
  | bufferData (target size usage : Nat)
  | genVertexArrays (n : Nat)
  | bindVertexArray (vao : Nat)
  | enableVertexAttribArray (index : Nat)
  | vertexAttribPointer (index size xtype : Nat) (normalized : Bool) (stride : Nat) (offsetIsNil : Bool)
  | getUniformLocation (prog : Nat) (name : List Char)
  | uniform1f (location : Int)
  | clear (mask : Nat)
  | useProgram (prog : Nat)
  | drawArrays (mode first count : Nat)
  | pollEvents
  | swapBuffers
  | terminate
  deriving DecidableEq, Repr

/-- Modelled from the spec: the `cell` type is declared outside
`src/main.go` (only its `draw` method appears there); per the spec it is "a
minimal entity pairing a GeometryBuffer handle with a draw call", so it
carries the vertex-array handle read as `c.drawable` on line 194. -/
structure cell where
  drawable : Nat
  deriving DecidableEq, Repr

/-- The method `cell.draw` (src/main.go lines 193-196): bind the cell's own
vertex array, then draw a line loop of `int32(len(square)/3)` vertices
starting at index 0. -/
def cellDraw (c : cell) : List GLCall :=
  [.bindVertexArray c.drawable,
   .drawArrays GL_LINE_LOOP 0 (square.length / 3)]

/-- The function `makeVao` (src/main.go lines 146-167).  The names the GL
driver hands back from `GenBuffers`/`GenVertexArrays` are oracle inputs
`vbo` and `vao`; the function returns the vertex-array name together with
the trace of GL calls it issues. -/
def makeVao (points : List ℚ) (vbo vao : Nat) : Nat × List GLCall :=
  (vao,
   [.genBuffers 1,
    .bindBuffer GL_ARRAY_BUFFER vbo,
    .bufferData GL_ARRAY_BUFFER (NUM_BYTES_IN_32_BIT * points.length) GL_STATIC_DRAW,
    .genVertexArrays 1,
    .bindVertexArray vao,
    .enableVertexAttribArray 0,
    .bindBuffer GL_ARRAY_BUFFER vbo,
    .vertexAttribPointer 0 3 GL_FLOAT false 0 true])

/-! ## `compileShader` (src/main.go lines 169-190) -/

/-- Oracle for one `compileShader` run: the shader name returned by
`gl.CreateShader`, the value `gl.GetShaderiv(COMPILE_STATUS)` stores, the
value `gl.GetShaderiv(INFO_LOG_LENGTH)` stores, and the log text the driver
writes in `gl.GetShaderInfoLog`. -/
structure ShaderEnv where
  shaderName : Nat
  compileStatus : Int
  infoLogLen : Nat
  infoLog : List Char

/-- The buffer `log := strings.Repeat("\x00", int(logLength+1))` after
`gl.GetShaderInfoLog(shader, logLength, nil, gl.Str(log))`: the driver
overwrites at most `logLength` leading bytes, the rest stay NUL. -/
def infoLogBuffer (senv : ShaderEnv) : List Char :=
  let written := senv.infoLog.take senv.infoLogLen
  written ++ (List.replicate (senv.infoLogLen + 1) '\x00').drop written.length

/-- The function `compileShader` (src/main.go lines 169-190).  Returns the
Go pair `(uint32, error)` — the error modelled as `Option` of the message
characters — together with the trace of GL calls issued. -/
def compileShaderF (source : List Char) (shaderType : Nat) (senv : ShaderEnv) :
    (Nat × Option (List Char)) × List GLCall :=
  let shader := senv.shaderName
  let pre : List GLCall :=
    [.createShader shaderType, .shaderSource shader,
     .compileShaderCall shader, .getShaderiv shader GL_COMPILE_STATUS]
  if senv.compileStatus = GL_FALSE then
    ((0, some ("failed to compile ".data ++ source ++ ": ".data ++ infoLogBuffer senv)),
     pre ++ [.getShaderiv shader GL_INFO_LOG_LENGTH,
             .getShaderInfoLog shader senv.infoLogLen])
  else
    ((shader, none), pre)

/-! ## The oracle for `main` and the cell grid -/

/-- Oracle for one run of `main`: for each fallible or value-returning
external call, the outcome the GLFW/GL library produces.  `none` in an
error slot means the call succeeds.  `vboName k`/`vaoName k` are the names
generated by the `k`-th `makeVao` call, `uTimeLoc k` the uniform location
returned in frame `k`, and `shouldClose k` the value of
`window.ShouldClose()` at the `k`-th loop check. -/
structure Env where
  glfwInitErr : Option (List Char)
  createWindowErr : Option (List Char)
  glInitErr : Option (List Char)
  vertexEnv : ShaderEnv
  fragmentEnv : ShaderEnv
  progName : Nat
  rows : Nat
  cols : Nat
  vboName : Nat → Nat
  vaoName : Nat → Nat
  uTimeLoc : Nat → Int
  shouldClose : Nat → Bool

/-- Modelled from the spec: `makeCells` is referenced on line 123 of
`src/main.go` but defined outside it; per the spec it instantiates "only
one shape (square) ... into a drawable collection", i.e. a grid of cells
each holding a vertex array built from the `square` geometry via
`makeVao`.  Grid dimensions and generated GL names come from the oracle. -/
def makeCells (env : Env) : List (List cell) × List GLCall :=
  let grid := (List.range env.rows).map (fun i =>
    (List.range env.cols).map (fun j =>
      makeVao square (env.vboName (i * env.cols + j)) (env.vaoName (i * env.cols + j))))
  (grid.map (fun row => row.map (fun p => cell.mk p.1)),
   (grid.map (fun row => (row.map Prod.snd).flatten)).flatten)

/-! ## The render loop (src/main.go lines 125-141) -/

/-- The NUL-terminated uniform name `gl.Str("u_time\x00")` on line 126. -/
def uTimeName : List Char := "u_time\x00".data

/-- The clear mask `gl.COLOR_BUFFER_BIT | gl.DEPTH_BUFFER_BIT` (line 127). -/
def clearMask : Nat := GL_COLOR_BUFFER_BIT ||| GL_DEPTH_BUFFER_BIT

/-- The nested cell loop (src/main.go lines 131-135): draw every cell of
every row in order. -/
def drawCells (cells : List (List cell)) : List GLCall :=
  (cells.map (fun row => (row.map cellDraw).flatten)).flatten

/-- One iteration of the loop body (src/main.go lines 126-140), in source
order: look up `u_time` by string and set it, clear, bind the program,
draw all cells, poll events, swap buffers. -/
def frameTrace (env : Env) (prog : Nat) (cells : List (List cell)) (k : Nat) : List GLCall :=
  [.getUniformLocation prog uTimeName,
   .uniform1f (env.uTimeLoc k),
   .clear clearMask,
   .useProgram prog]
  ++ drawCells cells
  ++ [.pollEvents, .swapBuffers]

/-- The loop `for !window.ShouldClose()` (line 125), with explicit fuel:
at the `k`-th condition check, if `shouldClose k` holds the loop exits at
once, otherwise the body of frame `k` runs and the loop re-checks. -/
def renderLoop (env : Env) (prog : Nat) (cells : List (List cell)) :
    Nat → Nat → List GLCall
  | 0, _ => []
  | fuel + 1, k =>
    if env.shouldClose k then []
    else frameTrace env prog cells k ++ renderLoop env prog cells fuel (k + 1)

/-! ## `main` (src/main.go lines 80-143) -/

/-- Outcome of `main`: either a `panic` with a message, or normal
completion; both carry the trace of external calls issued. -/
inductive MainResult where
  | panicked (msg : List Char) (trace : List GLCall)
  | completed (trace : List GLCall)
  deriving Repr

/-- Prepend already-issued calls to a later outcome's trace. -/
def MainResult.prepend (pre : List GLCall) : MainResult → MainResult
  | .panicked m t => .panicked m (pre ++ t)
  | .completed t => .completed (pre ++ t)

/-- The trace of calls an outcome carries. -/
def MainResult.trace : MainResult → List GLCall
  | .panicked _ t => t
  | .completed t => t

/-- The five `glfw.WindowHint` calls (src/main.go lines 85-89), in source
order. -/
def hintCalls : List GLCall :=
  [.windowHint GLFW_RESIZABLE GLFW_FALSE,
   .windowHint GLFW_CONTEXT_VERSION_MAJOR 4,
   .windowHint GLFW_CONTEXT_VERSION_MINOR 1,
   .windowHint GLFW_OPENGL_PROFILE GLFW_OPENGL_CORE_PROFILE,
   .windowHint GLFW_OPENGL_FORWARD_COMPAT GLFW_TRUE]

/-- `main` from the two `compileShader` calls on (src/main.go lines
106-141): compile both stages (panicking on either error), create and link
the program, build the cells, run the render loop, then run the deferred
`glfw.Terminate`. -/
def mainShaders (env : Env) (fuel : Nat) : MainResult :=
  let v := compileShaderF vertexShaderSource.data GL_VERTEX_SHADER env.vertexEnv
  match v.1.2 with
  | some e => .panicked e (v.2 ++ [.terminate])
  | none =>
    let f := compileShaderF fragmentShaderSource.data GL_FRAGMENT_SHADER env.fragmentEnv
    match f.1.2 with
    | some e => .panicked e (v.2 ++ f.2 ++ [.terminate])
    | none =>
      let prog := env.progName
      let mc := makeCells env
      MainResult.completed
        (v.2 ++ f.2
         ++ [.createProgram, .attachShader prog v.1.1, .attachShader prog f.1.1,
             .linkProgram prog]
         ++ mc.2 ++ renderLoop env prog mc.1 fuel 0 ++ [.terminate])

/-- `main` from `window.MakeContextCurrent()` on (src/main.go lines
95-141): make the context current, register the deferred `glfw.Terminate`,
run `gl.Init` (panicking on error, which runs the deferred terminate), log
the GL version string, then continue with the shaders. -/
def mainPostWindow (env : Env) (fuel : Nat) : MainResult :=
  match env.glInitErr with
  | some e => .panicked e [.makeContextCurrent, .glInit, .terminate]
  | none =>
    MainResult.prepend [.makeContextCurrent, .glInit, .getString GL_VERSION]
      (mainShaders env fuel)

/-- `main` after a successful `glfw.Init` (src/main.go lines 85-141): set
the five window hints, create the 640×480 window (panicking on error —
before the deferred terminate is registered), then continue. -/
def mainPostInit (env : Env) (fuel : Nat) : MainResult :=
  match env.createWindowErr with
  | some e => .panicked e (hintCalls ++ [.createWindow width height])
  | none =>
    MainResult.prepend (hintCalls ++ [.createWindow width height])
      (mainPostWindow env fuel)

/-- The function `main` (src/main.go lines 80-143). -/
def mainGo (env : Env) (fuel : Nat) : MainResult :=
  match env.glfwInitErr with
  | some e => .panicked e [.glfwInit]
  | none => MainResult.prepend [.glfwInit] (mainPostInit env fuel)

/-! ## Observation functions on traces and geometry -/

/-- True unless the call is one of the two link-introspection calls
(`gl.GetProgramiv`, `gl.GetProgramInfoLog`) a link-status check would
issue. -/
def notLinkQuery : GLCall → Bool
  | .getProgramiv _ _ => false
  | .getProgramInfoLog _ => false
  | _ => true

/-- True unless the call is one issued only by the render-loop body
(src/main.go lines 126-140). -/
def notLoopCall : GLCall → Bool
  | .getUniformLocation _ _ => false
  | .uniform1f _ => false
  | .clear _ => false
  | .useProgram _ => false
  | .drawArrays _ _ _ => false
  | .pollEvents => false
  | .swapBuffers => false
  | _ => true

/-- Is the call a `gl.DrawArrays`? -/
def isDrawCall : GLCall → Bool
  | .drawArrays _ _ _ => true
  | _ => false

/-- Is the call a `glfw.CreateWindow`? -/
def isWindowCreate : GLCall → Bool
  | .createWindow _ _ => true
  | _ => false

/-- Every coordinate of the list lies in the closed box `[-1/2, 1/2]`. -/
def coordsInHalfBox (l : List ℚ) : Bool :=
  l.all (fun x => decide (-(1/2) ≤ x ∧ x ≤ 1/2))

/-- Every third component (the z coordinate of each vertex triple) is 0,
and the list splits exactly into triples. -/
def zCoordsZero : List ℚ → Bool
  | [] => true
  | _ :: _ :: z :: rest => decide (z = 0) && zCoordsZero rest
  | _ => false

/-- Does `pat` occur as a contiguous substring of the second list? -/
def hasSubstring (pat : List Char) : List Char → Bool
  | [] => pat.isEmpty
  | c :: rest => pat.isPrefixOf (c :: rest) || hasSubstring pat rest

/-- The mix factor `abs(sin(u_time))` computed by both shader stages
(src/main.go lines 24 and 43), as a function of the time uniform. -/
noncomputable def shaderPct (t : ℝ) : ℝ := |Real.sin t|

/-! ## Concrete oracles used by the witnesses -/

/-- A shader-compile oracle on which compilation fails. -/
def senvFail : ShaderEnv := ⟨7, 0, 5, "bad shader log".data⟩

/-- A shader-compile oracle on which compilation succeeds. -/
def senvOk : ShaderEnv := ⟨7, 1, 0, []⟩

/-- An oracle on which every setup call succeeds and the window-close
signal appears at the second loop check. -/
def envOk : Env :=
  { glfwInitErr := none, createWindowErr := none, glInitErr := none,
    vertexEnv := senvOk, fragmentEnv := ⟨8, 1, 0, []⟩,
    progName := 1, rows := 1, cols := 1,
    vboName := fun k => 10 + k, vaoName := fun k => 20 + k,
    uTimeLoc := fun _ => 0, shouldClose := fun k => decide (1 ≤ k) }

/-- An oracle on which `glfw.Init` fails. -/
def envGlfwFail : Env := { envOk with glfwInitErr := some "glfw init failed".data }

/-- An oracle whose window-close signal is already set at the first loop
check. -/
def envClose : Env := { envOk with shouldClose := fun _ => true }

/-! ## Helper lemmas -/

lemma trace_prepend (pre : List GLCall) (r : MainResult) :
    (MainResult.prepend pre r).trace = pre ++ r.trace := by
  cases r <;> rfl

lemma infoLogBuffer_length (senv : ShaderEnv) :
    (infoLogBuffer senv).length = senv.infoLogLen + 1 := by
  simp [infoLogBuffer]

lemma infoLogBuffer_ne_nil (senv : ShaderEnv) : infoLogBuffer senv ≠ [] := by
  intro h
  have hl := infoLogBuffer_length senv
  rw [h] at hl
  simp at hl

lemma compileShaderF_fail (source : List Char) (ty : Nat) (senv : ShaderEnv)
    (h : senv.compileStatus = GL_FALSE) :
    compileShaderF source ty senv =
      ((0, some ("failed to compile ".data ++ source ++ ": ".data ++ infoLogBuffer senv)),
       [.createShader ty, .shaderSource senv.shaderName, .compileShaderCall senv.shaderName,
        .getShaderiv senv.shaderName GL_COMPILE_STATUS,
        .getShaderiv senv.shaderName GL_INFO_LOG_LENGTH,
        .getShaderInfoLog senv.shaderName senv.infoLogLen]) := by
  simp [compileShaderF, h]

lemma compileShaderF_ok (source : List Char) (ty : Nat) (senv : ShaderEnv)
    (h : ¬ senv.compileStatus = GL_FALSE) :
    compileShaderF source ty senv =
      ((senv.shaderName, none),
       [.createShader ty, .shaderSource senv.shaderName, .compileShaderCall senv.shaderName,
        .getShaderiv senv.shaderName GL_COMPILE_STATUS]) := by
  simp [compileShaderF, h]

/-! ## Claim theorems -/

/-- Claim C1: for every drawable cell, `cell.draw` binds that cell's own
vertex array and then issues a line-loop draw call whose vertex count is
`len(square)/3 = 6`, independent of which cell or geometry buffer is being
drawn. -/
theorem cell_draw_uses_square_count (c : cell) :
    cellDraw c = [.bindVertexArray c.drawable, .drawArrays GL_LINE_LOOP 0 6]
    ∧ square.length / 3 = 6 :=
  ⟨rfl, rfl⟩

/-- Claim C2: for every shader source and stage kind, if the compile
status is false then `compileShader` returns no shader handle (the handle
slot is 0) and an error whose message embeds the offending source text and
a non-empty info log, obtained by querying `INFO_LOG_LENGTH` first and then
reading that many bytes into a buffer pre-sized to `logLength+1`. -/
theorem compileShader_failure_reports (source : List Char) (shaderType : Nat)
    (senv : ShaderEnv) (h : senv.compileStatus = GL_FALSE) :
    compileShaderF source shaderType senv =
      ((0, some ("failed to compile ".data ++ source ++ ": ".data ++ infoLogBuffer senv)),
       [.createShader shaderType, .shaderSource senv.shaderName,
        .compileShaderCall senv.shaderName,
        .getShaderiv senv.shaderName GL_COMPILE_STATUS,
        .getShaderiv senv.shaderName GL_INFO_LOG_LENGTH,
        .getShaderInfoLog senv.shaderName senv.infoLogLen])
    ∧ (∃ pre post, "failed to compile ".data ++ source ++ ": ".data ++ infoLogBuffer senv
         = pre ++ source ++ post)
    ∧ infoLogBuffer senv ≠ []
    ∧ (infoLogBuffer senv).length = senv.infoLogLen + 1 := by
  refine ⟨compileShaderF_fail source shaderType senv h, ?_, infoLogBuffer_ne_nil senv,
    infoLogBuffer_length senv⟩
  exact ⟨"failed to compile ".data, ": ".data ++ infoLogBuffer senv, by simp⟩

/-- Witness for C2: the failing oracle `senvFail` with a concrete source. -/
theorem compileShader_failure_reports_witness :
    senvFail.compileStatus = GL_FALSE ∧
    (compileShaderF "junk".data GL_VERTEX_SHADER senvFail =
      ((0, some ("failed to compile ".data ++ "junk".data ++ ": ".data ++ infoLogBuffer senvFail)),
       [.createShader GL_VERTEX_SHADER, .shaderSource senvFail.shaderName,
        .compileShaderCall senvFail.shaderName,
        .getShaderiv senvFail.shaderName GL_COMPILE_STATUS,
        .getShaderiv senvFail.shaderName GL_INFO_LOG_LENGTH,
        .getShaderInfoLog senvFail.shaderName senvFail.infoLogLen])
    ∧ (∃ pre post, "failed to compile ".data ++ "junk".data ++ ": ".data ++ infoLogBuffer senvFail
         = pre ++ "junk".data ++ post)
    ∧ infoLogBuffer senvFail ≠ []
    ∧ (infoLogBuffer senvFail).length = senvFail.infoLogLen + 1) :=
  ⟨rfl, compileShader_failure_reports "junk".data GL_VERTEX_SHADER senvFail rfl⟩

/-- Claim C8: for every input slice, `makeVao` uploads exactly
`4 * len(points)` bytes with the static-draw usage hint, configures
attribute slot 0 as 3 contiguous unnormalized floats with zero stride and
nil offset, and returns the generated vertex-array handle. -/
theorem makeVao_contract (points : List ℚ) (vbo vao : Nat) :
    makeVao points vbo vao =
      (vao,
       [.genBuffers 1,
        .bindBuffer GL_ARRAY_BUFFER vbo,
        .bufferData GL_ARRAY_BUFFER (4 * points.length) GL_STATIC_DRAW,
        .genVertexArrays 1,
        .bindVertexArray vao,
        .enableVertexAttribArray 0,
        .bindBuffer GL_ARRAY_BUFFER vbo,
        .vertexAttribPointer 0 3 GL_FLOAT false 0 true]) :=
  rfl

set_option maxRecDepth 40000

/-- Claim C9: the mix factor `abs(sin(t))` used by both shader stages lies
in `[0,1]` for every real `t`, equals 0 at `t = 0` and 1 at `t = π/2`; the
expression `abs(sin(u_time))` indeed occurs in both shader sources. -/
theorem shader_mix_factor_bounds :
    (∀ t : ℝ, 0 ≤ shaderPct t ∧ shaderPct t ≤ 1)
    ∧ shaderPct 0 = 0
    ∧ shaderPct (Real.pi / 2) = 1
    ∧ hasSubstring "abs(sin(u_time))".data vertexShaderSource.data = true
    ∧ hasSubstring "abs(sin(u_time))".data fragmentShaderSource.data = true := by
  refine ⟨fun t => ⟨abs_nonneg _, abs_le.mpr ⟨Real.neg_one_le_sin t, Real.sin_le_one t⟩⟩,
    ?_, ?_, ?_, ?_⟩
  · simp [shaderPct]
  · simp [shaderPct, Real.sin_pi_div_two]
  · decide
  · decide

/-- Claim C10: each geometry constant has length an exact multiple of 3,
all coordinates lie in `[-1/2, 1/2]`, every third (z) component is 0,
`square` holds exactly 6 vertices, and the draw count `len(square)/3 = 6`
fits a 32-bit signed integer. -/
theorem geometry_invariants :
    right.length % 3 = 0 ∧ square.length % 3 = 0 ∧ isoceles.length % 3 = 0
    ∧ coordsInHalfBox right = true ∧ coordsInHalfBox square = true
    ∧ coordsInHalfBox isoceles = true
    ∧ zCoordsZero right = true ∧ zCoordsZero square = true
    ∧ zCoordsZero isoceles = true
    ∧ square.length / 3 = 6
    ∧ square.length / 3 < 2 ^ 31 := by
  refine ⟨rfl, rfl, rfl, ?_, ?_, ?_, ?_, ?_, ?_, rfl, by decide⟩ <;>
    norm_num [coordsInHalfBox, zCoordsZero, right, square, isoceles]

/-- Counterexample to claim C4 as stated: in each loop iteration the code
polls events and THEN swaps buffers (src/main.go lines 139-140), so the
claimed order — swap before poll — does not match the trace of a concrete
one-frame run. -/
theorem render_loop_claimed_order_false :
    renderLoop envOk 1 [[⟨2⟩]] 1 0 =
      [.getUniformLocation 1 uTimeName, .uniform1f 0, .clear clearMask, .useProgram 1,
       .bindVertexArray 2, .drawArrays GL_LINE_LOOP 0 6, .pollEvents, .swapBuffers]
    ∧ renderLoop envOk 1 [[⟨2⟩]] 1 0 ≠
      [.getUniformLocation 1 uTimeName, .uniform1f 0, .clear clearMask, .useProgram 1,
       .bindVertexArray 2, .drawArrays GL_LINE_LOOP 0 6, .swapBuffers, .pollEvents] := by
  constructor <;> decide

/-- Claim C4 (amended): in every iteration the operations occur in this
order — set the `u_time` uniform (looked up by string each frame), clear
the color and depth buffers, bind the shader program, issue the draw calls
for all cells, poll events, then swap the frame buffer. -/
theorem render_loop_iteration_order (env : Env) (prog : Nat)
    (cells : List (List cell)) (fuel k : Nat) (h : env.shouldClose k = false) :
    renderLoop env prog cells (fuel + 1) k =
      [.getUniformLocation prog uTimeName, .uniform1f (env.uTimeLoc k),
       .clear clearMask, .useProgram prog]
      ++ drawCells cells
      ++ [.pollEvents, .swapBuffers]
      ++ renderLoop env prog cells fuel (k + 1) := by
  simp [renderLoop, h, frameTrace]

/-- Witness for C4 (amended) at a concrete oracle, one cell and frame 0. -/
theorem render_loop_iteration_order_witness :
    envOk.shouldClose 0 = false ∧
    renderLoop envOk 1 [[⟨2⟩]] (0 + 1) 0 =
      [.getUniformLocation 1 uTimeName, .uniform1f (envOk.uTimeLoc 0),
       .clear clearMask, .useProgram 1]
      ++ drawCells [[⟨2⟩]]
      ++ [.pollEvents, .swapBuffers]
      ++ renderLoop envOk 1 [[⟨2⟩]] 0 1 :=
  ⟨rfl, render_loop_iteration_order envOk 1 [[⟨2⟩]] 0 0 rfl⟩

/-- Claim C5: once the window-close signal is set, the render loop
terminates at the next loop-condition check — its trace from that check on
is empty, so in particular no further draw call is issued; with the signal
set before the first check (`k = 0`), zero frames are rendered. -/
theorem render_loop_stops_on_close (env : Env) (prog : Nat)
    (cells : List (List cell)) (fuel k : Nat) (h : env.shouldClose k = true) :
    renderLoop env prog cells fuel k = []
    ∧ (renderLoop env prog cells fuel k).countP isDrawCall = 0 := by
  cases fuel with
  | zero => exact ⟨rfl, rfl⟩
  | succ n => refine ⟨?_, ?_⟩ <;> simp [renderLoop, h]

/-- Witness for C5: the close signal set from the very first check. -/
theorem render_loop_stops_on_close_witness :
    envClose.shouldClose 0 = true ∧
    (renderLoop envClose 1 [[⟨2⟩]] 3 0 = []
     ∧ (renderLoop envClose 1 [[⟨2⟩]] 3 0).countP isDrawCall = 0) :=
  ⟨rfl, render_loop_stops_on_close envClose 1 [[⟨2⟩]] 3 0 rfl⟩

/-- Claim C7: whenever `glfw.Init` succeeds, the trace of `main` starts
with the five window hints — resizable false, context version 4.1, core
profile, forward-compatible true — followed immediately by the creation of
a window of exactly `width = 640` by `height = 480` pixels; all hints are
set before the window-creation call. -/
theorem window_hints_before_creation (env : Env) (fuel : Nat)
    (h : env.glfwInitErr = none) :
    (width = 640 ∧ height = 480) ∧
    ∃ rest, (mainGo env fuel).trace =
      [.glfwInit,
       .windowHint GLFW_RESIZABLE GLFW_FALSE,
       .windowHint GLFW_CONTEXT_VERSION_MAJOR 4,
       .windowHint GLFW_CONTEXT_VERSION_MINOR 1,
       .windowHint GLFW_OPENGL_PROFILE GLFW_OPENGL_CORE_PROFILE,
       .windowHint GLFW_OPENGL_FORWARD_COMPAT GLFW_TRUE,
       .createWindow width height] ++ rest := by
  refine ⟨⟨rfl, rfl⟩, ?_⟩
  cases h2 : env.createWindowErr with
  | some e =>
      exact ⟨[], by
        simp [mainGo, h, mainPostInit, h2, MainResult.prepend, MainResult.trace, hintCalls]⟩
  | none =>
      exact ⟨(mainPostWindow env fuel).trace,
        by simp [mainGo, h, mainPostInit, h2, trace_prepend, hintCalls]⟩

/-- Witness for C7 at the all-successful oracle. -/
theorem window_hints_before_creation_witness :
    envOk.glfwInitErr = none ∧
    ((width = 640 ∧ height = 480) ∧
     ∃ rest, (mainGo envOk 0).trace =
      [.glfwInit,
       .windowHint GLFW_RESIZABLE GLFW_FALSE,
       .windowHint GLFW_CONTEXT_VERSION_MAJOR 4,
       .windowHint GLFW_CONTEXT_VERSION_MINOR 1,
       .windowHint GLFW_OPENGL_PROFILE GLFW_OPENGL_CORE_PROFILE,
       .windowHint GLFW_OPENGL_FORWARD_COMPAT GLFW_TRUE,
       .createWindow width height] ++ rest) :=
  ⟨rfl, window_hints_before_creation envOk 0 rfl⟩

lemma cellDraw_clean (c : cell) : (cellDraw c).all notLinkQuery = true := rfl

lemma drawCells_clean (cells : List (List cell)) :
    (drawCells cells).all notLinkQuery = true := by
  simp [drawCells, List.all_flatten, List.all_map, Function.comp, cellDraw]
  intro row hrow x c hc hx
  rcases hx with h | h <;> subst h <;> rfl

lemma makeCells_clean (env : Env) : (makeCells env).2.all notLinkQuery = true := by
  simp [makeCells, List.all_flatten, List.all_map, Function.comp, makeVao]
  intro i hi x j hj hx
  rcases hx with h | h | h | h | h | h | h | h <;> subst h <;> rfl

lemma frameTrace_clean (env : Env) (prog : Nat) (cells : List (List cell)) (k : Nat) :
    (frameTrace env prog cells k).all notLinkQuery = true := by
  simp [frameTrace, List.all_append, drawCells_clean, notLinkQuery]

lemma renderLoop_clean (env : Env) (prog : Nat) (cells : List (List cell)) :
    ∀ fuel k, (renderLoop env prog cells fuel k).all notLinkQuery = true := by
  intro fuel
  induction fuel with
  | zero => intro k; rfl
  | succ n ih =>
      intro k
      cases hc : env.shouldClose k with
      | true => simp [renderLoop, hc]
      | false => simp [renderLoop, hc, List.all_append, frameTrace_clean, ih]

lemma mainShaders_clean (env : Env) (fuel : Nat) :
    (mainShaders env fuel).trace.all notLinkQuery = true := by
  by_cases h4 : env.vertexEnv.compileStatus = GL_FALSE
  · simp [mainShaders, compileShaderF_fail _ _ _ h4, MainResult.trace,
      List.all_append, notLinkQuery]
  · by_cases h5 : env.fragmentEnv.compileStatus = GL_FALSE
    · simp [mainShaders, compileShaderF_ok _ _ _ h4, compileShaderF_fail _ _ _ h5,
        MainResult.trace, List.all_append, notLinkQuery]
    · simp [mainShaders, compileShaderF_ok _ _ _ h4, compileShaderF_ok _ _ _ h5,
        MainResult.trace, List.all_append, notLinkQuery, makeCells_clean, renderLoop_clean]

/-- Claim C6: in no run of `main` — whatever the oracle and however many
frames the loop executes — does the trace contain a `gl.GetProgramiv` or a
`gl.GetProgramInfoLog` call: the link status of the program is never
queried and the program info log is never retrieved. -/
theorem link_status_never_queried (env : Env) (fuel : Nat) :
    (mainGo env fuel).trace.all notLinkQuery = true := by
  cases h1 : env.glfwInitErr with
  | some e => simp [mainGo, h1, MainResult.trace, notLinkQuery]
  | none =>
      cases h2 : env.createWindowErr with
      | some e =>
          simp [mainGo, h1, mainPostInit, h2, MainResult.prepend, MainResult.trace,
            List.all_append, notLinkQuery, hintCalls]
      | none =>
          cases h3 : env.glInitErr with
          | some e =>
              simp [mainGo, h1, mainPostInit, h2, mainPostWindow, h3, MainResult.prepend,
                MainResult.trace, List.all_append, notLinkQuery, hintCalls]
          | none =>
              simp [mainGo, h1, mainPostInit, h2, mainPostWindow, h3, trace_prepend,
                List.all_append, notLinkQuery, hintCalls, mainShaders_clean]

/-- Claim C3: if windowing init, window creation, the GL function loader,
or either shader compilation fails, `main` panics with a message; its
trace contains none of the render-loop calls (the loop is never entered)
and at most one window-creation attempt (no retry). -/
theorem setup_failure_panics_before_loop (env : Env) (fuel : Nat)
    (h : env.glfwInitErr.isSome ∨ env.createWindowErr.isSome ∨ env.glInitErr.isSome
       ∨ env.vertexEnv.compileStatus = GL_FALSE
       ∨ env.fragmentEnv.compileStatus = GL_FALSE) :
    ∃ msg t, mainGo env fuel = .panicked msg t
      ∧ t.all notLoopCall = true
      ∧ t.countP isWindowCreate ≤ 1 := by
  cases h1 : env.glfwInitErr with
  | some e => exact ⟨e, [.glfwInit], by simp [mainGo, h1], rfl, by decide⟩
  | none =>
  cases h2 : env.createWindowErr with
  | some e =>
      refine ⟨e, GLCall.glfwInit :: (hintCalls ++ [GLCall.createWindow width height]),
        ?_, rfl, by decide⟩
      simp [mainGo, h1, mainPostInit, h2, MainResult.prepend]
  | none =>
  cases h3 : env.glInitErr with
  | some e =>
      refine ⟨e, GLCall.glfwInit :: (hintCalls ++ [GLCall.createWindow width height]
          ++ [GLCall.makeContextCurrent, GLCall.glInit, GLCall.terminate]),
        ?_, rfl, by decide⟩
      simp [mainGo, h1, mainPostInit, h2, mainPostWindow, h3, MainResult.prepend]
  | none =>
  by_cases h4 : env.vertexEnv.compileStatus = GL_FALSE
  · refine ⟨"failed to compile ".data ++ vertexShaderSource.data ++ ": ".data
        ++ infoLogBuffer env.vertexEnv,
      GLCall.glfwInit :: (hintCalls ++ [GLCall.createWindow width height]
        ++ [GLCall.makeContextCurrent, GLCall.glInit, GLCall.getString GL_VERSION]
        ++ [GLCall.createShader GL_VERTEX_SHADER,
            GLCall.shaderSource env.vertexEnv.shaderName,
            GLCall.compileShaderCall env.vertexEnv.shaderName,
            GLCall.getShaderiv env.vertexEnv.shaderName GL_COMPILE_STATUS,
            GLCall.getShaderiv env.vertexEnv.shaderName GL_INFO_LOG_LENGTH,
            GLCall.getShaderInfoLog env.vertexEnv.shaderName env.vertexEnv.infoLogLen]
        ++ [GLCall.terminate]),
      ?_, rfl, ?_⟩
    · simp [mainGo, h1, mainPostInit, h2, mainPostWindow, h3, mainShaders,
        compileShaderF_fail _ _ _ h4, MainResult.prepend]
    · simp [isWindowCreate, List.countP_cons, List.countP_append, hintCalls]
  · by_cases h5 : env.fragmentEnv.compileStatus = GL_FALSE
    · refine ⟨"failed to compile ".data ++ fragmentShaderSource.data ++ ": ".data
          ++ infoLogBuffer env.fragmentEnv,
        GLCall.glfwInit :: (hintCalls ++ [GLCall.createWindow width height]
          ++ [GLCall.makeContextCurrent, GLCall.glInit, GLCall.getString GL_VERSION]
          ++ [GLCall.createShader GL_VERTEX_SHADER,
              GLCall.shaderSource env.vertexEnv.shaderName,
              GLCall.compileShaderCall env.vertexEnv.shaderName,
              GLCall.getShaderiv env.vertexEnv.shaderName GL_COMPILE_STATUS]
          ++ [GLCall.createShader GL_FRAGMENT_SHADER,
              GLCall.shaderSource env.fragmentEnv.shaderName,
              GLCall.compileShaderCall env.fragmentEnv.shaderName,
              GLCall.getShaderiv env.fragmentEnv.shaderName GL_COMPILE_STATUS,
              GLCall.getShaderiv env.fragmentEnv.shaderName GL_INFO_LOG_LENGTH,
              GLCall.getShaderInfoLog env.fragmentEnv.shaderName env.fragmentEnv.infoLogLen]
          ++ [GLCall.terminate]),
        ?_, rfl, ?_⟩
      · simp [mainGo, h1, mainPostInit, h2, mainPostWindow, h3, mainShaders,
          compileShaderF_ok _ _ _ h4, compileShaderF_fail _ _ _ h5, MainResult.prepend]
      · simp [isWindowCreate, List.countP_cons, List.countP_append, hintCalls]
    · exfalso
      rcases h with hA | hA | hA | hA | hA
      · rw [h1] at hA; simp at hA
      · rw [h2] at hA; simp at hA
      · rw [h3] at hA; simp at hA
      · exact h4 hA
      · exact h5 hA

/-- Witness for C3: a concrete oracle whose `glfw.Init` fails. -/
theorem setup_failure_panics_before_loop_witness :
    (envGlfwFail.glfwInitErr.isSome ∨ envGlfwFail.createWindowErr.isSome
       ∨ envGlfwFail.glInitErr.isSome
       ∨ envGlfwFail.vertexEnv.compileStatus = GL_FALSE
       ∨ envGlfwFail.fragmentEnv.compileStatus = GL_FALSE) ∧
    (∃ msg t, mainGo envGlfwFail 2 = .panicked msg t
      ∧ t.all notLoopCall = true
      ∧ t.countP isWindowCreate ≤ 1) :=
  ⟨Or.inl rfl, setup_failure_panics_before_loop envGlfwFail 2 (Or.inl rfl)⟩
